import Mathlib

/-!
Shallow embedding of `tensorboard_server.py` and `start_jupyter_kernel.py`
(repository `cdl-inclusion/modal_tooling`).

The router (`tensorboard_server.py`) resolves an experiment key for each
request, lazily builds and caches one TensorBoard WSGI sub-application per
key, and delegates the request to it; a `VolumeMiddleware` wrapped around
each sub-application reloads the shared Modal volume before the sub-
application handles a request.  The launcher (`start_jupyter_kernel.py`)
creates a sandbox, prints an access URL carrying a random token, and polls
a status endpoint once per second for up to 60 seconds.

Python strings are modelled as Lean `String`/`List Char`; machine-level
details (actual networking, the TensorBoard internals) are abstracted as
opaque instance identifiers and poll outcomes, exactly as far as the claims
require.
-/

namespace ModalTooling

/-! ### Python string helpers

`strContains needle hay` models Python's `needle in hay` for strings:
a contiguous-substring test. -/

def strContains (needle hay : String) : Bool :=
  decide (needle.data <:+: hay.data)

/-- Python `s.startswith(pre)`. -/
def strStartsWith (s pre : String) : Bool :=
  pre.data.isPrefixOf s.data

/-- Python `s.endswith(suf)`. -/
def strEndsWith (s suf : String) : Bool :=
  decide (suf.data <:+ s.data)

/-- Hex digit value, as used by `urllib.parse.unquote` for `%XX` escapes. -/
def hexVal (c : Char) : Option Nat :=
  if '0' ≤ c ∧ c ≤ '9' then some (c.toNat - '0'.toNat)
  else if 'a' ≤ c ∧ c ≤ 'f' then some (c.toNat - 'a'.toNat + 10)
  else if 'A' ≤ c ∧ c ≤ 'F' then some (c.toNat - 'A'.toNat + 10)
  else none

/-- Character-level model of `urllib.parse.unquote`: each valid `%XX`
escape is replaced by the character with code `XX`; an invalid escape is
left literal.  (This matches CPython exactly on single-byte escapes such
as `%2F`; multi-byte UTF-8 escape runs are out of scope of the claims.) -/
def unquoteCharsAux : Nat → List Char → List Char
  | 0, cs => cs
  | _ + 1, [] => []
  | fuel + 1, c :: rest =>
    if c = '%' then
      match rest with
      | h1 :: h2 :: rest2 =>
        match hexVal h1, hexVal h2 with
        | some a, some b => Char.ofNat (16 * a + b) :: unquoteCharsAux fuel rest2
        | _, _ => '%' :: unquoteCharsAux fuel rest
      | _ => '%' :: unquoteCharsAux fuel rest
    else c :: unquoteCharsAux fuel rest

/-- `unquoteCharsAux` with enough fuel to process the whole list: every
step consumes at least one character and one unit of fuel, so
`cs.length` units are never exhausted. -/
def unquoteChars (cs : List Char) : List Char :=
  unquoteCharsAux cs.length cs

def unquote (s : String) : String :=
  String.mk (unquoteChars s.data)

/-- `s.replace('+', ' ')`, the first step of the value decoding done by
`urllib.parse.parse_qsl`. -/
def plusToSpace (s : String) : String :=
  String.mk (s.data.map fun c => if c = '+' then ' ' else c)

/-- `s.split('=', 1)`: split at the first `=`, if any. -/
def splitOnceEq (cs : List Char) : Option (List Char × List Char) :=
  match cs with
  | [] => none
  | c :: rest =>
    if c = '=' then some ([], rest)
    else (splitOnceEq rest).map fun p => (c :: p.1, p.2)

/-- One `name=value` field of a query string, as treated by
`urllib.parse.parse_qsl` with the default `keep_blank_values=False`:
empty fields, fields without `=`, and fields with an empty value are all
skipped; surviving names and values get `+`→space then percent-decoding. -/
def fieldToPair (f : String) : Option (String × String) :=
  if f = "" then none
  else
    match splitOnceEq f.data with
    | none => none
    | some (n, v) =>
      if v = [] then none
      else some (unquote (plusToSpace (String.mk n)),
                 unquote (plusToSpace (String.mk v)))

/-- `qs.split('&')`: the field list of a query string.  Never empty, and
faithful to Python (`''.split('&') == ['']`, `'a&&b'.split('&') ==
['a', '', 'b']`). -/
def splitAmp : List Char → List (List Char)
  | [] => [[]]
  | c :: rest =>
    match splitAmp rest with
    | [] => [[]]
    | h :: t => if c = '&' then [] :: h :: t else (c :: h) :: t

/-- `urllib.parse.parse_qsl(qs)` with default arguments: split on `&`,
decode each field, drop blanks. -/
def parseQsl (qs : String) : List (String × String) :=
  ((splitAmp qs.data).map String.mk).filterMap fieldToPair

/-- `parse_qs(query_string).get('logdir', [None])[0]`: the first value
parsed for the name `logdir` (insertion order), if any. -/
def getLogdirParam (qs : String) : Option String :=
  (((parseQsl qs).filter fun p => p.1 = "logdir").head?).map Prod.snd

/-- Python truthiness of an optional string (`None` and `""` are falsy),
used by `if logdir_param:` / `if not logdir_param:` in `create_app`. -/
def pyTruthy : Option String → Bool
  | none => false
  | some s => !(s == "")

/-! ### Router: request classification and key resolution
(`tensorboard_server.py`, `create_app`) -/

/-- The `is_asset_or_api` test of `create_app`: path prefixes `/font-`,
`/data/`, `/experiment/` or one of the static-asset suffixes. -/
def isAssetOrApi (path : String) : Bool :=
  strStartsWith path "/font-" ||
  strStartsWith path "/data/" ||
  strStartsWith path "/experiment/" ||
  strEndsWith path ".js" ||
  strEndsWith path ".css" ||
  strEndsWith path ".woff2" ||
  strEndsWith path ".woff" ||
  strEndsWith path ".svg" ||
  strEndsWith path ".png" ||
  strEndsWith path ".ico"

/-- The characters of the literal regex fragment `logdir=`. -/
def logdirEq : List Char := "logdir=".data

/-- One attempt of the regex `logdir=([^&]+)` at the head of `cs`:
succeeds when `cs` starts with `logdir=` followed by at least one
non-`&` character, capturing the maximal run of non-`&` characters. -/
def matchLogdirAt (cs : List Char) : Option (List Char) :=
  if logdirEq.isPrefixOf cs then
    match cs.drop 7 with
    | [] => none
    | d :: rest => if d = '&' then none else some (d :: rest.takeWhile fun x => x ≠ '&')
  else none

/-- `re.search(r'logdir=([^&]+)', referer)`: the group of the leftmost
match, scanning positions left to right. -/
def searchLogdir : List Char → Option (List Char)
  | [] => none
  | c :: rest =>
    match matchLogdirAt (c :: rest) with
    | some v => some v
    | none => searchLogdir rest

/-- The referer-sniffing step of `create_app`: guarded by
`'logdir=' in referer`, then the regex search, then `unquote` on the
captured group. -/
def refererLogdir (referer : String) : Option String :=
  if strContains "logdir=" referer then
    (searchLogdir referer.data).map fun v => unquote (String.mk v)
  else none

/-- A WSGI request as far as `create_app` inspects it: query string,
path, and `Referer` header (empty string when absent, matching
`environ.get('HTTP_REFERER', '')`). -/
structure Request where
  query : String
  path : String
  referer : String
deriving DecidableEq, Repr

/-- What `create_app` decides to do with a request: serve the static
landing page, or delegate to the sub-application for a key. -/
inductive Routing
  | landing
  | delegate (key : String)
deriving DecidableEq, Repr

/-- The fixed default key of the cache-empty fallback in `create_app`. -/
def defaultKey : String := "train_test_1"

/-- The key-resolution logic of `create_app`, as written: parse `logdir`
from the query and `unquote` it if truthy; if falsy, asset/API requests
fall back to referer sniffing, then to the first cached key in insertion
order, then to the fixed default; non-asset requests with no key get the
landing page. `cacheKeys` is `list(tensorboard_cache.keys())`. -/
def routeRequest (req : Request) (cacheKeys : List String) : Routing :=
  let logdir0 := getLogdirParam req.query
  let logdir1 := if pyTruthy logdir0 then logdir0.map unquote else logdir0
  if !(pyTruthy logdir1) then
    if isAssetOrApi req.path then
      let logdir2 :=
        match refererLogdir req.referer with
        | some v => some v
        | none => logdir1
      let logdir3 :=
        if !(pyTruthy logdir2) then
          match cacheKeys with
          | [] => some defaultKey
          | k :: _ => some k
        else logdir2
      Routing.delegate (logdir3.getD "")
    else Routing.landing
  else Routing.delegate (logdir1.getD "")

/-! ### Router: instance cache state machine
(`tensorboard_server.py`, `get_tensorboard_app`) -/

/-- `STORAGE_VOLUME_NAME = "jupyter_kernel"`. -/
def STORAGE_VOLUME_NAME : String := "jupyter_kernel"

/-- `LOGDIR = f"/{STORAGE_VOLUME_NAME}"`. -/
def LOGDIR : String := "/" ++ STORAGE_VOLUME_NAME

/-- `os.path.join(a, b)` (POSIX): an absolute second component discards
the first; otherwise the components are joined with `/` unless the first
is empty or already ends in `/`. -/
def posixJoin (a b : String) : String :=
  if strStartsWith b "/" then b
  else if a = "" ∨ strEndsWith a "/" then a ++ b
  else a ++ "/" ++ b

/-- The server's mutable state: the `tensorboard_cache` dict (an
insertion-ordered association list from key to an opaque instance
identifier), the next fresh identifier, and a log of every construction
performed, recording the key and the `full_logdir` the new instance was
rooted at. -/
structure ServerState where
  cache : List (String × Nat)
  nextId : Nat
  constructions : List (String × String)
deriving DecidableEq, Repr

/-- The state before any request: `tensorboard_cache = {}`. -/
def initialState : ServerState := ⟨[], 0, []⟩

/-- Dict lookup `tensorboard_cache[k]` on the insertion-ordered model
(keys are unique, so first match is the entry). -/
def lookupCache (cache : List (String × Nat)) (k : String) : Option Nat :=
  (cache.find? fun p => p.1 = k).map Prod.snd

/-- `get_tensorboard_app(logdir_param)`: on a cache miss, compute
`full_logdir = os.path.join(LOGDIR, logdir_param)`, construct a fresh
sub-application rooted there, insert it into the cache, and return it;
on a hit, return the cached instance with the state unchanged. -/
def getTensorboardApp (st : ServerState) (k : String) : Nat × ServerState :=
  match lookupCache st.cache k with
  | some inst => (inst, st)
  | none =>
    let fullLogdir := posixJoin LOGDIR k
    (st.nextId,
     { cache := st.cache ++ [(k, st.nextId)]
       nextId := st.nextId + 1
       constructions := st.constructions ++ [(k, fullLogdir)] })

/-- Sequential processing of the resolved keys of a request sequence,
each through `get_tensorboard_app`. -/
def handleKeys (st : ServerState) : List String → ServerState
  | [] => st
  | k :: ks => handleKeys (getTensorboardApp st k).2 ks

/-- Number of sub-application constructions performed for key `k`. -/
def countConstructions (st : ServerState) (k : String) : Nat :=
  (st.constructions.filter fun c => c.1 = k).length

/-- Invariant tying the construction log to the cache: they record the
same keys in the same order, and no key repeats (the dict never holds
two entries for one key, and `get_tensorboard_app` only constructs on a
miss). -/
def cacheInv (st : ServerState) : Prop :=
  st.cache.map Prod.fst = st.constructions.map Prod.fst ∧
  (st.cache.map Prod.fst).Nodup

/-! ### Router: volume-reload middleware
(`tensorboard_server.py`, `VolumeMiddleware.__call__`) -/

/-- Outcome of `self.volume.reload()`: success, a `RuntimeError` with a
given message, or an exception of any other class with a given message. -/
inductive ReloadOutcome
  | success
  | runtimeError (msg : String)
  | otherError (msg : String)
deriving DecidableEq, Repr

/-- `VolumeMiddleware.__call__` up to the delegation line: `ok ()` means
control reaches `return self.app(environ, start_response)`; `error msg`
means the exception propagates to the caller (the bare `raise` in the
`RuntimeError` branch).  A `RuntimeError` whose message contains
`"open files preventing"` is swallowed; any other `RuntimeError` is
logged and re-raised; every non-`RuntimeError` exception is logged and
swallowed by the `except Exception` clause. -/
def volumeMiddlewareReload (outcome : ReloadOutcome) : Except String Unit :=
  match outcome with
  | .success => .ok ()
  | .runtimeError msg =>
    if strContains "open files preventing" msg then .ok () else .error msg
  | .otherError _ => .ok ()

/-! ### Router: per-request pipeline trace
(`create_app` combined with the middleware wiring) -/

/-- Observable steps of one request through the router.  `extractKey` is
the query parsing/classification at the top of `create_app`;
`reloadAttempt` is the `self.volume.reload()` call inside
`VolumeMiddleware.__call__`; `landingResponse` is the static landing
page; `delegated k` is the sub-application for key `k` handling the
request. -/
inductive Event
  | extractKey
  | reloadAttempt
  | landingResponse
  | delegated (key : String)
deriving DecidableEq, Repr

/-- The event trace of one request, assuming the volume reload outcome
`outcome`.  `create_app` always parses the query first; the landing
branch returns without touching any sub-application (hence without any
reload); the delegation branch calls the cached/new sub-application,
whose middleware chain attempts the reload and then either delegates or
lets the reload exception propagate (`raised`). -/
def requestTrace (req : Request) (cacheKeys : List String)
    (outcome : ReloadOutcome) : List Event :=
  Event.extractKey ::
    (match routeRequest req cacheKeys with
     | .landing => [Event.landingResponse]
     | .delegate k =>
       Event.reloadAttempt ::
         (match volumeMiddlewareReload outcome with
          | .ok _ => [Event.delegated k]
          | .error _ => []))

/-! ### Launcher: token emissions (`start_jupyter_kernel.py`) -/

/-- Everything the launcher emits outside its own process: stdout lines,
HTTP requests, and the Modal secret store passed to the sandbox
(`modal.Secret.from_dict({"JUPYTER_TOKEN": token})`). -/
inductive Emission
  | stdout (line : String)
  | networkRequest (url : String)
  | secretStore (name value : String)
deriving DecidableEq, Repr

/-- `url = f"{tunnel.url}/?token={token}"`. -/
def accessUrl (tunnelUrl tok : String) : String :=
  tunnelUrl ++ "/?token=" ++ tok

/-- The poll target `f"{tunnel.url}/api/status?token={token}"` inside
`is_jupyter_up`. -/
def statusUrl (tunnelUrl tok : String) : String :=
  tunnelUrl ++ "/api/status?token=" ++ tok

/-- The launcher's emission sequence for one run, parameterised by the
runtime data (tunnel URL, sandbox id, token), the number of status polls
performed, and whether the loop ended ready or timed out.  Order follows
the script: creation notice, the secret store handed to
`modal.Sandbox.create`, the sandbox-id line, the access-URL line, one
status request per poll iteration, and the final readiness or timeout
line. -/
def launcherEmissions (tunnelUrl sandboxId tok : String)
    (polls : Nat) (ready : Bool) : List Emission :=
  [Emission.stdout "🏖️  Creating sandbox",
   Emission.secretStore "JUPYTER_TOKEN" tok,
   Emission.stdout ("🏖️  Sandbox ID: " ++ sandboxId),
   Emission.stdout ("🏖️  Jupyter notebook is running at: " ++ accessUrl tunnelUrl tok)]
  ++ (List.range polls).map (fun _ => Emission.networkRequest (statusUrl tunnelUrl tok))
  ++ [Emission.stdout (if ready then "🏖️  Jupyter is up and running!"
                       else "🏖️  Timed out waiting for Jupyter to start.")]

/-- Whether the token string occurs inside an emission's payload. -/
def tokenAppears (tok : String) : Emission → Bool
  | .stdout line => strContains tok line
  | .networkRequest url => strContains tok url
  | .secretStore _ value => strContains tok value

/-! ### Launcher: readiness check (`is_jupyter_up`) -/

/-- A JSON value, the shape of `json.loads(response.read().decode())`. -/
inductive Json
  | null
  | bool (b : Bool)
  | num (n : Int)
  | str (s : String)
  | arr (elems : List Json)
  | obj (fields : List (String × Json))

/-- Python truthiness of a JSON-decoded value. -/
def Json.truthy : Json → Bool
  | .null => false
  | .bool b => b
  | .num n => !(n == 0)
  | .str s => !(s == "")
  | .arr elems => !elems.isEmpty
  | .obj fields => !fields.isEmpty

/-- `dict.get` on the fields of a decoded JSON object.  `json.loads`
builds a `dict`, so a duplicated key keeps its last occurrence. -/
def lookupField (fields : List (String × Json)) (key : String) : Option Json :=
  fields.foldl (fun acc p => if p.1 = key then some p.2 else acc) none

/-- How the body of a 200 response decodes: `json.loads` either raises
or yields a JSON value. -/
inductive BodyParse
  | malformed
  | parsed (j : Json)

/-- One poll observed by `is_jupyter_up`: either `urllib.request.urlopen`
(or the read) raises, or it returns a response with a status code and a
body. -/
inductive PollOutcome
  | connError
  | response (code : Nat) (body : BodyParse)

/-- `is_jupyter_up()`, which returns a Python value: `False` on any
exception (connection failure, malformed JSON, `.get` on a non-dict),
`False` when the code is not 200 (the fall-through `return False`), and
`data.get("started", False)` on a 200 response with a JSON object body.
The function is total: no outcome raises. -/
def isJupyterUp : PollOutcome → Json
  | .connError => .bool false
  | .response code body =>
    if code == 200 then
      match body with
      | .malformed => .bool false
      | .parsed j =>
        match j with
        | .obj fields => (lookupField fields "started").getD (.bool false)
        | _ => .bool false
    else .bool false

/-! ### Launcher: startup polling loop -/

/-- `startup_timeout = 60` seconds. -/
def startupTimeout : Nat := 60

/-- Result of the polling loop: ready after `elapsed` seconds (the
`break` branch), or timed out at `elapsed` seconds (the `while`/`else`
branch). -/
inductive LoopResult
  | ready (elapsed : Nat)
  | timedOut (elapsed : Nat)
deriving DecidableEq, Repr

def LoopResult.elapsed : LoopResult → Nat
  | .ready t => t
  | .timedOut t => t

/-- One-second-granularity model of the `while time.time() - start_time <
startup_timeout` loop: `t` is the elapsed whole seconds, `remaining =
startupTimeout - t` the seconds of budget left; `signals t` is the value
of `is_jupyter_up()` truthiness at the poll made at second `t`.  Each
failed iteration `time.sleep(1)`s, advancing the clock by one second. -/
def pollLoopAux (signals : Nat → Bool) : Nat → Nat → LoopResult
  | 0, t => LoopResult.timedOut t
  | remaining + 1, t =>
    if signals t then LoopResult.ready t
    else pollLoopAux signals remaining (t + 1)

/-- The whole loop, started at elapsed time 0 with the full 60-second
budget. -/
def pollLoop (signals : Nat → Bool) : LoopResult :=
  pollLoopAux signals startupTimeout 0

/-- The final message printed after the loop: the `break` path prints
the ready line, the `else` clause of the `while` prints the timeout
line; the loop is not restarted in either case. -/
def loopMessage : LoopResult → String
  | .ready _ => "🏖️  Jupyter is up and running!"
  | .timedOut _ => "🏖️  Timed out waiting for Jupyter to start."

/-! ## Claim C1: storage-refresh failure handling -/

/-- Claim C1, counterexample: a refresh failure is not always swallowed.
A `RuntimeError` whose message lacks `"open files preventing"` is
re-raised by `VolumeMiddleware.__call__`, so the request is not
delegated: the claim that "any other (unexpected) refresh error is
logged and also swallowed" is false on the code. -/
theorem c1_counterexample :
    volumeMiddlewareReload (ReloadOutcome.runtimeError "volume metadata corrupted")
      = Except.error "volume metadata corrupted" ∧
    Except.error "volume metadata corrupted" ≠ (Except.ok () : Except String Unit) :=
  ⟨rfl, fun h => Except.noConfusion h⟩

/-- Claim C1, amended: a successful reload, a `RuntimeError` mentioning
`"open files preventing"`, and any non-`RuntimeError` exception all let
the request proceed to delegation; but a `RuntimeError` without that
marker is logged and re-raised, failing the request. -/
theorem c1_amended :
    volumeMiddlewareReload ReloadOutcome.success = Except.ok () ∧
    (∀ msg, strContains "open files preventing" msg = true →
      volumeMiddlewareReload (ReloadOutcome.runtimeError msg) = Except.ok ()) ∧
    (∀ msg, strContains "open files preventing" msg = false →
      volumeMiddlewareReload (ReloadOutcome.runtimeError msg) = Except.error msg) ∧
    (∀ msg, volumeMiddlewareReload (ReloadOutcome.otherError msg) = Except.ok ()) := by
  refine ⟨rfl, ?_, ?_, fun msg => rfl⟩
  · intro msg h
    simp [volumeMiddlewareReload, h]
  · intro msg h
    simp [volumeMiddlewareReload, h]

/-- Claim C1, witness: the amended theorem evaluated on a contention
message and on an unexpected `RuntimeError` message. -/
theorem c1_witness :
    volumeMiddlewareReload
      (ReloadOutcome.runtimeError "there are open files preventing the operation")
      = Except.ok () ∧
    volumeMiddlewareReload (ReloadOutcome.runtimeError "volume deleted")
      = Except.error "volume deleted" :=
  ⟨c1_amended.2.1 _ (by decide), c1_amended.2.2.1 _ (by decide)⟩

/-! ## Claim C2: no-logdir non-asset requests and the cache -/

/-- Claim C2, counterexample: a request with no `logdir` and a non-asset
path, with an instance cached for key `A`, is answered with the landing
page — it is not delegated to the instance for the fixed default key. -/
theorem c2_counterexample :
    routeRequest ⟨"", "/some/page", ""⟩ ["A"] = Routing.landing ∧
    Routing.landing ≠ Routing.delegate defaultKey :=
  ⟨by decide, by decide⟩

/-- Claim C2, amended: for every request whose query yields no truthy
`logdir` and whose path is not asset/API-shaped, the router renders the
static landing page and does not delegate, whatever the cache holds:
the landing page takes priority over both cache fallback and the
default key, which apply only to asset/API paths. -/
theorem c2_amended (req : Request) (cache : List String)
    (hq : pyTruthy (getLogdirParam req.query) = false)
    (hp : isAssetOrApi req.path = false) :
    routeRequest req cache = Routing.landing := by
  simp [routeRequest, hq, hp]

/-- Claim C2, witness: the amended theorem on a concrete no-logdir
request to `/view` with key `A` cached. -/
theorem c2_witness : routeRequest ⟨"", "/view", ""⟩ ["A"] = Routing.landing :=
  c2_amended ⟨"", "/view", ""⟩ ["A"] (by decide) (by decide)

/-! ## Claim C3: rooting of newly constructed sub-applications -/

/-- Claim C3, counterexample: for the uncached key `/etc` (which begins
with a path separator) the constructed sub-application is rooted at
`/etc` itself — `os.path.join` discards the storage root — and not at
`<storage-root>//etc`, so the claim's "for every string k" is false. -/
theorem c3_counterexample :
    (getTensorboardApp initialState "/etc").2.constructions = [("/etc", "/etc")] ∧
    ("/etc" : String) ≠ LOGDIR ++ "/" ++ "/etc" :=
  ⟨by decide, by decide⟩

/-- Claim C3, amended: for every resolved key `k` not in the cache that
does not begin with a path separator, the new sub-application is rooted
at `<storage-root>/<k>`; a key beginning with `/` is instead taken as
the root verbatim, per `os.path.join` semantics. -/
theorem c3_amended (st : ServerState) (k : String)
    (hmiss : lookupCache st.cache k = none)
    (habs : strStartsWith k "/" = false) :
    (getTensorboardApp st k).2.constructions
      = st.constructions ++ [(k, LOGDIR ++ "/" ++ k)] ∧
    (∀ k2, strStartsWith k2 "/" = true → posixJoin LOGDIR k2 = k2) := by
  have hroot : ¬((LOGDIR : String) = "" ∨ strEndsWith LOGDIR "/" = true) := by decide
  constructor
  · simp [getTensorboardApp, hmiss, posixJoin, habs, hroot]
  · intro k2 h2
    simp [posixJoin, h2]

/-- Claim C3, witness: the amended theorem on the uncached relative key
`run1` from the initial state. -/
theorem c3_witness :
    (getTensorboardApp initialState "run1").2.constructions
      = initialState.constructions ++ [("run1", LOGDIR ++ "/" ++ "run1")] ∧
    (∀ k2, strStartsWith k2 "/" = true → posixJoin LOGDIR k2 = k2) :=
  c3_amended initialState "run1" (by decide) (by decide)

/-! ## Claim C5: where the launcher's token travels -/

/-- Claim C5, counterexample: the launcher's status-poll HTTP request is
a piece of transmitted data other than the printed access URL and the
secret store, and it carries the token in its query string, so the
claim that no other network request contains the token is false. -/
theorem c5_counterexample :
    Emission.networkRequest (statusUrl "https://tun.modal.host" "sEcReT123")
      ∈ launcherEmissions "https://tun.modal.host" "sb-1" "sEcReT123" 1 true ∧
    tokenAppears "sEcReT123"
      (Emission.networkRequest (statusUrl "https://tun.modal.host" "sEcReT123")) = true :=
  ⟨by decide, by decide⟩

/-- Claim C5, amended: provided the token does not accidentally occur in
the launcher's fixed message text or the sandbox id line, every emission
in which the token appears is one of: the secret store passed to the
sandbox, the printed access URL, or a status-poll request to the tunnel
(the poll deliberately sends the same token). -/
theorem c5_amended (tunnelUrl sandboxId tok : String) (polls : Nat) (ready : Bool)
    (h1 : strContains tok "🏖️  Creating sandbox" = false)
    (h2 : strContains tok ("🏖️  Sandbox ID: " ++ sandboxId) = false)
    (h3 : strContains tok "🏖️  Jupyter is up and running!" = false)
    (h4 : strContains tok "🏖️  Timed out waiting for Jupyter to start." = false)
    (e : Emission) (he : e ∈ launcherEmissions tunnelUrl sandboxId tok polls ready)
    (ha : tokenAppears tok e = true) :
    e = Emission.secretStore "JUPYTER_TOKEN" tok ∨
    e = Emission.stdout ("🏖️  Jupyter notebook is running at: " ++ accessUrl tunnelUrl tok) ∨
    e = Emission.networkRequest (statusUrl tunnelUrl tok) := by
  simp only [launcherEmissions, List.mem_append, List.mem_cons, List.mem_map,
    List.mem_range, List.not_mem_nil, or_false] at he
  rcases he with ((rfl | rfl | rfl | rfl) | ⟨i, _, rfl⟩) | rfl
  · exact absurd ha (by simp [tokenAppears, h1])
  · exact Or.inl rfl
  · exact absurd ha (by simp [tokenAppears, h2])
  · exact Or.inr (Or.inl rfl)
  · exact Or.inr (Or.inr rfl)
  · cases ready
    · exact absurd ha (by simp [tokenAppears, h4])
    · exact absurd ha (by simp [tokenAppears, h3])

/-- Claim C5, witness: the amended theorem evaluated on the secret-store
emission of a concrete run. -/
theorem c5_witness :
    Emission.secretStore "JUPYTER_TOKEN" "AbCd1234"
      = Emission.secretStore "JUPYTER_TOKEN" "AbCd1234" ∨
    Emission.secretStore "JUPYTER_TOKEN" "AbCd1234"
      = Emission.stdout ("🏖️  Jupyter notebook is running at: "
          ++ accessUrl "https://t.modal.host" "AbCd1234") ∨
    Emission.secretStore "JUPYTER_TOKEN" "AbCd1234"
      = Emission.networkRequest (statusUrl "https://t.modal.host" "AbCd1234") :=
  c5_amended "https://t.modal.host" "sb-1" "AbCd1234" 2 false
    (by decide) (by decide) (by decide) (by decide)
    (Emission.secretStore "JUPYTER_TOKEN" "AbCd1234") (by decide) (by decide)

/-! ## Claim C6: when the volume refresh happens -/

/-- Claim C6, counterexample: a request to `/` with no `logdir` is
answered with the landing page and its trace contains no reload
attempt, so the claim that every incoming request triggers a refresh
before its response — and that the refresh precedes key extraction —
is false on the code. -/
theorem c6_counterexample :
    requestTrace ⟨"", "/", ""⟩ [] ReloadOutcome.success
      = [Event.extractKey, Event.landingResponse] ∧
    Event.reloadAttempt ∉ requestTrace ⟨"", "/", ""⟩ [] ReloadOutcome.success :=
  ⟨by decide, by decide⟩

/-- Claim C6, amended: a reload of the shared storage mount is attempted
exactly for delegated requests — inside the sub-application's middleware
chain, after key extraction and before the sub-application handles the
request — while landing-page responses are produced with no reload
attempt at all. -/
theorem c6_amended (req : Request) (cache : List String) (outcome : ReloadOutcome) :
    (routeRequest req cache = Routing.landing →
      requestTrace req cache outcome = [Event.extractKey, Event.landingResponse]) ∧
    (∀ k, routeRequest req cache = Routing.delegate k →
      volumeMiddlewareReload outcome = Except.ok () →
      requestTrace req cache outcome
        = [Event.extractKey, Event.reloadAttempt, Event.delegated k]) ∧
    (∀ k msg, routeRequest req cache = Routing.delegate k →
      volumeMiddlewareReload outcome = Except.error msg →
      requestTrace req cache outcome = [Event.extractKey, Event.reloadAttempt]) := by
  refine ⟨fun h => by simp [requestTrace, h], fun k h hr => by simp [requestTrace, h, hr],
    fun k msg h hr => by simp [requestTrace, h, hr]⟩

/-- Claim C6, witness: the amended theorem on a concrete landing request
and a concrete delegated request. -/
theorem c6_witness :
    requestTrace ⟨"", "/", ""⟩ [] ReloadOutcome.success
      = [Event.extractKey, Event.landingResponse] ∧
    requestTrace ⟨"logdir=run1", "/", ""⟩ [] ReloadOutcome.success
      = [Event.extractKey, Event.reloadAttempt, Event.delegated "run1"] :=
  ⟨(c6_amended ⟨"", "/", ""⟩ [] ReloadOutcome.success).1 (by decide),
   (c6_amended ⟨"logdir=run1", "/", ""⟩ [] ReloadOutcome.success).2.1 "run1"
     (by decide) rfl⟩

/-! ## Claim C4: at most one construction per key, cache never evicted -/

/-- A successful `find?` survives appending on the right. -/
theorem find?_append_some {α : Type} (p : α → Bool) (l l' : List α) (a : α)
    (h : l.find? p = some a) : (l ++ l').find? p = some a := by
  induction l with
  | nil => simp [List.find?] at h
  | cons x xs ih =>
    by_cases hx : p x
    · rw [List.find?_cons_of_pos _ hx] at h
      rw [List.cons_append, List.find?_cons_of_pos _ hx]
      exact h
    · rw [List.find?_cons_of_neg _ hx] at h
      rw [List.cons_append, List.find?_cons_of_neg _ hx]
      exact ih h

/-- A cache miss means no cache entry carries the key. -/
theorem lookupCache_none_iff (cache : List (String × Nat)) (k : String) :
    lookupCache cache k = none ↔ ∀ p ∈ cache, p.1 ≠ k := by
  simp [lookupCache, List.find?_eq_none]

/-- The invariant holds in the initial state. -/
theorem cacheInv_initial : cacheInv initialState := by
  constructor <;> simp [initialState, cacheInv]

/-- One `get_tensorboard_app` call preserves the invariant. -/
theorem cacheInv_step (st : ServerState) (k : String) (h : cacheInv st) :
    cacheInv (getTensorboardApp st k).2 := by
  unfold getTensorboardApp
  cases hfind : lookupCache st.cache k with
  | some inst => exact h
  | none =>
    obtain ⟨heq, hnd⟩ := h
    have hnotin : k ∉ st.cache.map Prod.fst := by
      rw [lookupCache_none_iff] at hfind
      simp only [List.mem_map]
      rintro ⟨p, hp, rfl⟩
      exact hfind p hp rfl
    constructor
    · simp [heq]
    · simp only [List.map_append, List.map_cons, List.map_nil]
      rw [List.nodup_append]
      refine ⟨hnd, List.nodup_singleton k, ?_⟩
      intro a ha hak
      simp only [List.mem_singleton] at hak
      exact hnotin (hak ▸ ha)

/-- Processing any key sequence preserves the invariant. -/
theorem cacheInv_handleKeys (ks : List String) :
    ∀ st : ServerState, cacheInv st → cacheInv (handleKeys st ks) := by
  induction ks with
  | nil => intro st h; exact h
  | cons k ks ih => intro st h; exact ih _ (cacheInv_step st k h)

/-- One `get_tensorboard_app` call never changes an existing entry. -/
theorem lookupCache_step_preserved (st : ServerState) (k' k : String) (i : Nat)
    (h : lookupCache st.cache k = some i) :
    lookupCache (getTensorboardApp st k').2.cache k = some i := by
  unfold getTensorboardApp
  cases hfind : lookupCache st.cache k' with
  | some inst => exact h
  | none =>
    simp only [lookupCache] at h ⊢
    obtain ⟨p, hp, rfl⟩ : ∃ p, st.cache.find? (fun p => p.1 = k) = some p ∧ p.2 = i := by
      cases hf : st.cache.find? fun p => p.1 = k with
      | none => rw [hf] at h; exact absurd h (by simp)
      | some p => rw [hf] at h; exact ⟨p, rfl, by simpa using h⟩
    rw [find?_append_some _ _ _ _ hp]
    rfl

/-- Processing further requests never changes an existing entry. -/
theorem lookupCache_handleKeys_preserved (ks : List String) :
    ∀ (st : ServerState) (k : String) (i : Nat),
      lookupCache st.cache k = some i →
      lookupCache (handleKeys st ks).cache k = some i := by
  induction ks with
  | nil => intro st k i h; exact h
  | cons k' ks ih =>
    intro st k i h
    exact ih _ _ _ (lookupCache_step_preserved st k' k i h)

/-- Key-filtered length is at most one when the mapped keys are nodup. -/
theorem filter_fst_length_le_one {β : Type} (k : String) (l : List (String × β))
    (h : (l.map Prod.fst).Nodup) : (l.filter fun c => c.1 = k).length ≤ 1 := by
  induction l with
  | nil => simp
  | cons p l ih =>
    simp only [List.map_cons, List.nodup_cons] at h
    obtain ⟨hnotin, hnd⟩ := h
    by_cases hp : p.1 = k
    · have hnil : (l.filter fun c => c.1 = k) = [] := by
        rw [List.filter_eq_nil_iff]
        intro c hc
        simp only [decide_eq_true_eq]
        intro hck
        have hmem : c.1 ∈ l.map Prod.fst := List.mem_map_of_mem Prod.fst hc
        rw [hck, ← hp] at hmem
        exact hnotin hmem
      simp [List.filter_cons, hp, hnil]
    · simp only [List.filter_cons, hp]
      simpa using ih hnd

/-- Claim C4 (confirmed): under sequential processing the router builds
at most one sub-application per distinct key; a cached entry is returned
as-is with the state unmodified on every later request resolving to the
same key; and no later request ever evicts or replaces a cached entry. -/
theorem c4_theorem :
    (∀ (ks : List String) (k : String),
      countConstructions (handleKeys initialState ks) k ≤ 1) ∧
    (∀ (st : ServerState) (k : String) (i : Nat),
      lookupCache st.cache k = some i → getTensorboardApp st k = (i, st)) ∧
    (∀ (st : ServerState) (k : String) (i : Nat) (ks : List String),
      lookupCache st.cache k = some i →
      lookupCache (handleKeys st ks).cache k = some i) := by
  refine ⟨?_, ?_, ?_⟩
  · intro ks k
    obtain ⟨heq, hnd⟩ := cacheInv_handleKeys ks initialState cacheInv_initial
    have hnd2 : ((handleKeys initialState ks).constructions.map Prod.fst).Nodup :=
      heq ▸ hnd
    exact filter_fst_length_le_one k _ hnd2
  · intro st k i h
    unfold getTensorboardApp
    rw [h]
  · intro st k i ks h
    exact lookupCache_handleKeys_preserved ks st k i h

/-- Claim C4, witness: the theorem evaluated on the request sequence
`run1, run2, run1` and on a concrete cached state. -/
theorem c4_witness :
    countConstructions (handleKeys initialState ["run1", "run2", "run1"]) "run1" ≤ 1 ∧
    getTensorboardApp ⟨[("run1", 0)], 1, [("run1", "/jupyter_kernel/run1")]⟩ "run1"
      = (0, ⟨[("run1", 0)], 1, [("run1", "/jupyter_kernel/run1")]⟩) ∧
    lookupCache
      (handleKeys ⟨[("run1", 0)], 1, [("run1", "/jupyter_kernel/run1")]⟩
        ["run2", "run3"]).cache "run1" = some 0 :=
  ⟨c4_theorem.1 ["run1", "run2", "run1"] "run1",
   c4_theorem.2.1 _ "run1" 0 (by decide),
   c4_theorem.2.2 _ "run1" 0 ["run2", "run3"] (by decide)⟩

/-! ## Claim C8: the readiness check never raises -/

/-- Claim C8 (confirmed): `is_jupyter_up` is total (the Lean embedding is
a function, mirroring that every exception path is caught) and returns
the negative signal `False` on a connection failure, on any non-200
response, on a malformed body, and on a 200 JSON-object body whose
`started` field is absent or `false`; a 200 body with `started: true`
returns `True`; and a truthy return is only ever produced by a 200
response whose JSON object carries a truthy `started` field. -/
theorem c8_theorem :
    (isJupyterUp PollOutcome.connError = Json.bool false) ∧
    (∀ (code : Nat) (body : BodyParse), code ≠ 200 →
      isJupyterUp (PollOutcome.response code body) = Json.bool false) ∧
    (isJupyterUp (PollOutcome.response 200 BodyParse.malformed) = Json.bool false) ∧
    (∀ fields, lookupField fields "started" = none →
      isJupyterUp (PollOutcome.response 200 (BodyParse.parsed (Json.obj fields)))
        = Json.bool false) ∧
    (∀ fields, lookupField fields "started" = some (Json.bool false) →
      isJupyterUp (PollOutcome.response 200 (BodyParse.parsed (Json.obj fields)))
        = Json.bool false) ∧
    (∀ fields, lookupField fields "started" = some (Json.bool true) →
      isJupyterUp (PollOutcome.response 200 (BodyParse.parsed (Json.obj fields)))
        = Json.bool true) ∧
    (∀ o, (isJupyterUp o).truthy = true →
      ∃ fields v, o = PollOutcome.response 200 (BodyParse.parsed (Json.obj fields)) ∧
        lookupField fields "started" = some v ∧ v.truthy = true) := by
  refine ⟨rfl, ?_, rfl, ?_, ?_, ?_, ?_⟩
  · intro code body hcode
    have hbeq : (code == 200) = false := by simpa using hcode
    simp [isJupyterUp, hbeq]
  · intro fields h
    simp [isJupyterUp, h]
  · intro fields h
    simp [isJupyterUp, h]
  · intro fields h
    simp [isJupyterUp, h]
  · intro o htruthy
    cases o with
    | connError => exact absurd htruthy (by simp [isJupyterUp, Json.truthy])
    | response code body =>
      by_cases hc : (code == 200) = true
      · have hcode : code = 200 := by simpa using hc
        subst hcode
        cases body with
        | malformed => exact absurd htruthy (by simp [isJupyterUp, Json.truthy])
        | parsed j =>
          cases j with
          | obj fields =>
            cases hf : lookupField fields "started" with
            | none =>
              rw [show isJupyterUp
                    (PollOutcome.response 200 (BodyParse.parsed (Json.obj fields)))
                  = Json.bool false by simp [isJupyterUp, hf]] at htruthy
              exact absurd htruthy (by simp [Json.truthy])
            | some v =>
              refine ⟨fields, v, rfl, hf, ?_⟩
              rw [show isJupyterUp
                    (PollOutcome.response 200 (BodyParse.parsed (Json.obj fields)))
                  = v by simp [isJupyterUp, hf]] at htruthy
              exact htruthy
          | null => exact absurd htruthy (by simp [isJupyterUp, Json.truthy])
          | bool b => exact absurd htruthy (by simp [isJupyterUp, Json.truthy])
          | num n => exact absurd htruthy (by simp [isJupyterUp, Json.truthy])
          | str s => exact absurd htruthy (by simp [isJupyterUp, Json.truthy])
          | arr elems => exact absurd htruthy (by simp [isJupyterUp, Json.truthy])
      · have hb : (code == 200) = false := by simpa using hc
        exact absurd htruthy (by simp [isJupyterUp, hb, Json.truthy])

/-- Claim C8, witness: the theorem evaluated on a 503 response, a 200
response with no `started` field, and a 200 response with
`started: true`. -/
theorem c8_witness :
    isJupyterUp (PollOutcome.response 503 BodyParse.malformed) = Json.bool false ∧
    isJupyterUp (PollOutcome.response 200
      (BodyParse.parsed (Json.obj [("other", Json.num 1)]))) = Json.bool false ∧
    isJupyterUp (PollOutcome.response 200
      (BodyParse.parsed (Json.obj [("started", Json.bool true)]))) = Json.bool true :=
  ⟨c8_theorem.2.1 503 BodyParse.malformed (by decide),
   c8_theorem.2.2.2.1 [("other", Json.num 1)] rfl,
   c8_theorem.2.2.2.2.2.1 [("started", Json.bool true)] rfl⟩

/-! ## Claim C9: the polling loop's budget and early exit -/

/-- The loop never runs past its remaining budget. -/
theorem pollLoopAux_elapsed (signals : Nat → Bool) :
    ∀ (r t : Nat), (pollLoopAux signals r t).elapsed ≤ t + r := by
  intro r
  induction r with
  | zero => intro t; simp [pollLoopAux, LoopResult.elapsed]
  | succ n ih =>
    intro t
    simp only [pollLoopAux]
    cases h : signals t with
    | true =>
      rw [if_pos rfl]
      simp only [LoopResult.elapsed]
      omega
    | false =>
      rw [if_neg (by simp)]
      have := ih (t + 1)
      omega

/-- The loop exits at the first positive signal inside the budget. -/
theorem pollLoopAux_ready (signals : Nat → Bool) :
    ∀ (r i t : Nat), i < r → signals (t + i) = true →
      (∀ j, j < i → signals (t + j) = false) →
      pollLoopAux signals r t = LoopResult.ready (t + i) := by
  intro r
  induction r with
  | zero => intro i t hi; omega
  | succ n ih =>
    intro i t hi hsig hprev
    cases i with
    | zero =>
      simp only [Nat.add_zero] at hsig
      simp only [pollLoopAux]
      rw [hsig, if_pos rfl, Nat.add_zero]
    | succ m =>
      have h0 : signals t = false := by
        have := hprev 0 (Nat.succ_pos m)
        simpa using this
      have harr : t + 1 + m = t + (m + 1) := by omega
      have hrec : pollLoopAux signals n (t + 1) = LoopResult.ready (t + 1 + m) := by
        apply ih m (t + 1) (by omega) (by rw [harr]; exact hsig)
        intro j hj
        have harr2 : t + 1 + j = t + (j + 1) := by omega
        rw [harr2]
        exact hprev (j + 1) (by omega)
      simp only [pollLoopAux]
      rw [h0, if_neg (by simp), hrec, harr]

/-- With no positive signal inside the budget the loop times out exactly
when the budget is exhausted. -/
theorem pollLoopAux_timeout (signals : Nat → Bool) :
    ∀ (r t : Nat), (∀ i, i < r → signals (t + i) = false) →
      pollLoopAux signals r t = LoopResult.timedOut (t + r) := by
  intro r
  induction r with
  | zero => intro t _; simp [pollLoopAux]
  | succ n ih =>
    intro t hall
    have h0 : signals t = false := by simpa using hall 0 (Nat.succ_pos n)
    have hrec : pollLoopAux signals n (t + 1) = LoopResult.timedOut (t + 1 + n) := by
      apply ih (t + 1)
      intro i hi
      have harr2 : t + 1 + i = t + (i + 1) := by omega
      rw [harr2]
      exact hall (i + 1) (by omega)
    have harr : t + 1 + n = t + (n + 1) := by omega
    simp only [pollLoopAux]
    rw [h0, if_neg (by simp), hrec, harr]

/-- Claim C9 (confirmed): under the one-second-per-iteration model of
`time.sleep(1)`, the readiness loop always stops within the 60-second
startup budget; it exits at the first positive readiness signal; and
when no signal arrives inside the budget it stops at exactly 60 seconds
and prints the timeout message, with no retry (the loop result is final). -/
theorem c9_theorem (signals : Nat → Bool) :
    (pollLoop signals).elapsed ≤ startupTimeout ∧
    (∀ i, i < startupTimeout → signals i = true → (∀ j, j < i → signals j = false) →
      pollLoop signals = LoopResult.ready i) ∧
    ((∀ i, i < startupTimeout → signals i = false) →
      pollLoop signals = LoopResult.timedOut startupTimeout ∧
      loopMessage (pollLoop signals)
        = "🏖️  Timed out waiting for Jupyter to start.") := by
  refine ⟨?_, ?_, ?_⟩
  · have := pollLoopAux_elapsed signals startupTimeout 0
    simpa [pollLoop] using this
  · intro i hi hsig hprev
    have := pollLoopAux_ready signals startupTimeout i 0 hi (by simpa using hsig)
      (by intro j hj; simpa using hprev j hj)
    simpa [pollLoop] using this
  · intro hall
    have h := pollLoopAux_timeout signals startupTimeout 0
      (by intro i hi; simpa using hall i hi)
    rw [Nat.zero_add] at h
    refine ⟨by simpa [pollLoop] using h, ?_⟩
    rw [show pollLoop signals = LoopResult.timedOut startupTimeout by
      simpa [pollLoop] using h]
    rfl

/-- Claim C9, witness: the theorem evaluated on a signal that first
fires at second 3, and on a signal that never fires. -/
theorem c9_witness :
    pollLoop (fun t => t == 3) = LoopResult.ready 3 ∧
    pollLoop (fun _ => false) = LoopResult.timedOut startupTimeout ∧
    loopMessage (pollLoop (fun _ => false))
      = "🏖️  Timed out waiting for Jupyter to start." :=
  ⟨(c9_theorem (fun t => t == 3)).2.1 3 (by decide) (by decide) (by decide),
   (c9_theorem (fun _ => false)).2.2 (by decide)⟩

/-! ## Claim C10: empty-valued logdir parameters -/

/-- Decoding never turns a nonempty character list into the empty list:
every step of `unquoteCharsAux` emits at least one character. -/
theorem unquoteCharsAux_ne_nil :
    ∀ (fuel : Nat) (cs : List Char), cs ≠ [] → unquoteCharsAux fuel cs ≠ []
  | 0, _, h => by simpa [unquoteCharsAux] using h
  | _ + 1, [], h => absurd rfl h
  | _ + 1, c :: rest, _ => by
    simp only [unquoteCharsAux]
    by_cases hc : c = '%'
    · rw [if_pos hc]
      rcases rest with _ | ⟨h1, _ | ⟨h2, rest2⟩⟩
      · simp
      · simp
      · cases hh1 : hexVal h1 <;> cases hh2 : hexVal h2 <;> simp [hh1, hh2]
    · rw [if_neg hc]
      simp

/-- A nonempty character list makes a nonempty string. -/
theorem mk_ne_empty (l : List Char) (h : l ≠ []) : String.mk l ≠ "" :=
  fun hc => h (congrArg String.data hc)

/-- The model of `urllib.parse.unquote` preserves nonemptiness. -/
theorem unquote_ne_empty (s : String) (h : s ≠ "") : unquote s ≠ "" := by
  have hd : s.data ≠ [] := by
    intro hnil
    apply h
    cases s
    simp only at hnil
    rw [hnil]
  intro hcontra
  exact unquoteCharsAux_ne_nil s.data.length s.data hd (congrArg String.data hcontra)

/-- Claim C10 (confirmed): the query parser never emits an empty value
(so `?logdir=` contributes nothing, exactly as `parse_qs` with
`keep_blank_values=False` drops blank values); the claim's example
`logdir=` parses to no `logdir` parameter at all; and whenever the
query yields no `logdir` parameter the router behaves exactly as on an
empty query string — it enters the no-logdir fallback chain
(referer-sniffing/cache-fallback/default for asset paths, the landing
page otherwise). -/
theorem c10_theorem :
    (∀ (qs n v : String), (n, v) ∈ parseQsl qs → v ≠ "") ∧
    getLogdirParam "logdir=" = none ∧
    (∀ (q path referer : String) (cache : List String),
      getLogdirParam q = none →
      routeRequest ⟨q, path, referer⟩ cache = routeRequest ⟨"", path, referer⟩ cache) := by
  refine ⟨?_, by decide, ?_⟩
  · intro qs n v h
    simp only [parseQsl, List.mem_filterMap] at h
    obtain ⟨f, _, hf⟩ := h
    by_cases hfe : f = ""
    · rw [fieldToPair, if_pos hfe] at hf
      exact absurd hf (by simp)
    · rw [fieldToPair, if_neg hfe] at hf
      split at hf
      · exact absurd hf (by simp)
      · rename_i nm vl hsp
        split at hf
        · exact absurd hf (by simp)
        · rename_i hvl
          have hv : v = unquote (plusToSpace (String.mk vl)) :=
            (congrArg Prod.snd (Option.some.inj hf)).symm
          rw [hv]
          apply unquote_ne_empty
          apply mk_ne_empty
          intro hm
          exact hvl (by simpa using congrArg List.length hm)
  · intro q path referer cache h
    have h0 : getLogdirParam "" = none := rfl
    simp only [routeRequest, h, h0]

/-- Claim C10, witness: the theorem evaluated on a parsed pair of
`b=a`, the literal query `logdir=`, and a query carrying only an
empty-valued `logdir`. -/
theorem c10_witness :
    ("a" : String) ≠ "" ∧
    routeRequest ⟨"logdir=&x=1", "/view", ""⟩ ["A"]
      = routeRequest ⟨"", "/view", ""⟩ ["A"] :=
  ⟨c10_theorem.1 "b=a" "b" "a" (by decide),
   c10_theorem.2.2 "logdir=&x=1" "/view" "" ["A"] (by decide)⟩

/-! ## Claim C7: referer sniffing with a percent-encoded value -/

/-- Unfolding equation for `searchLogdir` on a cons cell. -/
theorem searchLogdir_cons (c : Char) (rest : List Char) :
    searchLogdir (c :: rest)
      = match matchLogdirAt (c :: rest) with
        | some v => some v
        | none => searchLogdir rest := rfl

/-- With every character of `v` distinct from `&` and `s` empty or
starting with `&`, the capture group stops exactly at `v`. -/
theorem takeWhile_amp_append (v s : List Char)
    (hv : ∀ c ∈ v, c ≠ '&') (hs : s = [] ∨ ∃ t, s = '&' :: t) :
    (v ++ s).takeWhile (fun x => x ≠ '&') = v := by
  induction v with
  | nil =>
    rcases hs with rfl | ⟨t, rfl⟩
    · rfl
    · simp [List.takeWhile_cons]
  | cons c v ih =>
    have hc : c ≠ '&' := hv c (List.mem_cons_self c v)
    simp only [List.cons_append, List.takeWhile_cons, decide_eq_true hc, if_pos]
    rw [ih fun d hd => hv d (List.mem_cons_of_mem c hd)]

/-- The regex attempt succeeds at an exact `logdir=` occurrence,
capturing the full run of non-`&` characters. -/
theorem matchLogdirAt_found (v s : List Char)
    (hv : v ≠ []) (hamp : ∀ c ∈ v, c ≠ '&')
    (hs : s = [] ∨ ∃ t, s = '&' :: t) :
    matchLogdirAt (logdirEq ++ (v ++ s)) = some v := by
  have hpre : logdirEq.isPrefixOf (logdirEq ++ (v ++ s)) = true :=
    List.isPrefixOf_iff_prefix.mpr ⟨v ++ s, rfl⟩
  have hdrop : (logdirEq ++ (v ++ s)).drop 7 = v ++ s := List.drop_left logdirEq (v ++ s)
  rw [matchLogdirAt, if_pos hpre, hdrop]
  cases v with
  | nil => exact absurd rfl hv
  | cons d v2 =>
    have hd : d ≠ '&' := hamp d (List.mem_cons_self d v2)
    simp only [List.cons_append]
    rw [if_neg hd]
    rw [takeWhile_amp_append v2 s (fun c hc => hamp c (List.mem_cons_of_mem d hc)) hs]

/-- The pattern `logdir=` has no self-overlap: it cannot begin strictly
inside a prefix `p` that does not contain it, even straddling into a
following exact occurrence. -/
theorem isPrefixOf_append_pattern_false (p w : List Char)
    (hinf : ¬ logdirEq <:+: p) (hp : p ≠ []) :
    logdirEq.isPrefixOf (p ++ (logdirEq ++ w)) = false := by
  by_contra hcontra
  have htrue : logdirEq.isPrefixOf (p ++ (logdirEq ++ w)) = true := by
    cases h : logdirEq.isPrefixOf (p ++ (logdirEq ++ w))
    · exact absurd h hcontra
    · rfl
  have hpre : logdirEq <+: p ++ (logdirEq ++ w) := List.isPrefixOf_iff_prefix.mp htrue
  have h7 : logdirEq.length = 7 := rfl
  have htake : logdirEq = (p ++ (logdirEq ++ w)).take 7 := by
    have := List.prefix_iff_eq_take.mp hpre
    rwa [h7] at this
  rcases Nat.lt_or_ge p.length 7 with hlen | hlen
  · have hjpos : 0 < p.length := List.length_pos.mpr hp
    have hkey : logdirEq = p ++ logdirEq.take (7 - p.length) := by
      conv_lhs => rw [htake]
      rw [List.take_append_eq_append_take,
        List.take_of_length_le (Nat.le_of_lt hlen),
        List.take_append_eq_append_take,
        show 7 - p.length - logdirEq.length = 0 by omega,
        List.take_zero, List.append_nil]
    have hdropped : logdirEq.drop p.length = logdirEq.take (7 - p.length) := by
      have := congrArg (List.drop p.length) hkey
      rwa [List.drop_append_eq_append_drop, Nat.sub_self, List.drop_zero,
        show p.drop p.length = [] from List.drop_length p,
        List.nil_append] at this
    have hcase : p.length = 1 ∨ p.length = 2 ∨ p.length = 3 ∨ p.length = 4 ∨
        p.length = 5 ∨ p.length = 6 := by omega
    rcases hcase with h | h | h | h | h | h <;> rw [h] at hdropped <;>
      exact absurd hdropped (by decide)
  · have : logdirEq = p.take 7 := by
      rw [htake, List.take_append_eq_append_take,
        show 7 - p.length = 0 by omega, List.take_zero, List.append_nil]
    exact hinf (this ▸ (List.take_prefix 7 p).isInfix)

/-- Scanning skips a prefix free of the pattern. -/
theorem searchLogdir_skip (p w : List Char) (hinf : ¬ logdirEq <:+: p) :
    searchLogdir (p ++ (logdirEq ++ w)) = searchLogdir (logdirEq ++ w) := by
  induction p with
  | nil => rfl
  | cons c p ih =>
    have hmatch : matchLogdirAt (c :: (p ++ (logdirEq ++ w))) = none := by
      rw [matchLogdirAt]
      rw [show c :: (p ++ (logdirEq ++ w)) = (c :: p) ++ (logdirEq ++ w) from rfl]
      rw [isPrefixOf_append_pattern_false (c :: p) w hinf (List.cons_ne_nil c p)]
      rfl
    rw [List.cons_append, searchLogdir_cons, hmatch]
    exact ih fun hin => hinf (List.infix_cons hin)

/-- The leftmost match of the regex at an exact occurrence whose prefix
is pattern-free captures exactly the value run. -/
theorem searchLogdir_found (v s : List Char)
    (hv : v ≠ []) (hamp : ∀ c ∈ v, c ≠ '&')
    (hs : s = [] ∨ ∃ t, s = '&' :: t) :
    searchLogdir (logdirEq ++ (v ++ s)) = some v := by
  have hm := matchLogdirAt_found v s hv hamp hs
  rw [show logdirEq ++ (v ++ s) = 'l' :: ("ogdir=".data ++ (v ++ s)) from rfl]
  rw [searchLogdir_cons]
  rw [show ('l' :: ("ogdir=".data ++ (v ++ s))) = logdirEq ++ (v ++ s) from rfl, hm]

/-- Claim C7 (confirmed): for a request to an asset/API path with no
truthy `logdir` query parameter, whose `Referer` is any string of the
form `<prefix>logdir=<value><rest>` where the prefix contains no
earlier `logdir=` occurrence, the value is nonempty and `&`-free, and
the rest is empty or begins with `&`, the router resolves the key to
the percent-decoded value and delegates to it — e.g. `logdir=run%2Fexp1`
resolves to `run/exp1`. -/
theorem c7_theorem (req : Request) (cache : List String) (p v s : List Char)
    (href : req.referer.data = p ++ (logdirEq ++ (v ++ s)))
    (hpfree : ¬ logdirEq <:+: p)
    (hv : v ≠ [])
    (hamp : ∀ c ∈ v, c ≠ '&')
    (hs : s = [] ∨ ∃ t, s = '&' :: t)
    (hq : pyTruthy (getLogdirParam req.query) = false)
    (hpath : isAssetOrApi req.path = true) :
    routeRequest req cache = Routing.delegate (unquote (String.mk v)) := by
  have hsearch : searchLogdir req.referer.data = some v := by
    rw [href, searchLogdir_skip p _ hpfree, searchLogdir_found v s hv hamp hs]
  have hcontains : strContains "logdir=" req.referer = true := by
    apply decide_eq_true
    refine ⟨p, v ++ s, ?_⟩
    rw [href]
    simp [logdirEq, List.append_assoc]
  have href2 : refererLogdir req.referer = some (unquote (String.mk v)) := by
    rw [refererLogdir, if_pos hcontains, hsearch]
    rfl
  have hne : unquote (String.mk v) ≠ "" :=
    unquote_ne_empty _ (mk_ne_empty v hv)
  have hbeq : (unquote (String.mk v) == "") = false := by
    rw [beq_eq_false_iff_ne]
    exact hne
  cases hl : getLogdirParam req.query with
  | some s0 =>
    rw [hl] at hq
    have hs0 : s0 = "" := by
      by_contra hs0
      rw [show pyTruthy (some s0) = true by
        simp [pyTruthy, beq_eq_false_iff_ne, hs0]] at hq
      exact Bool.noConfusion hq
    subst hs0
    simp [routeRequest, hl, pyTruthy, hpath, href2, hbeq]
  | none =>
    simp [routeRequest, hl, pyTruthy, hpath, href2, hbeq]

/-- Claim C7, witness: the theorem evaluated on a concrete asset request
whose referer carries `logdir=run%2Fexp1`; the resolved key is
`run/exp1`. -/
theorem c7_witness :
    routeRequest ⟨"", "/data/plugin/scalars", "https://x.modal.run/?logdir=run%2Fexp1"⟩ []
      = Routing.delegate "run/exp1" := by
  have h := c7_theorem
    ⟨"", "/data/plugin/scalars", "https://x.modal.run/?logdir=run%2Fexp1"⟩ []
    "https://x.modal.run/?".data "run%2Fexp1".data []
    (by decide) (by decide) (by decide) (by decide) (Or.inl rfl)
    (by decide) (by decide)
  rw [h]
  decide

end ModalTooling
